import Mathlib

/-!
Shallow embedding of the catch-clause privacy-analysis pipeline.

Sources embedded here:
* `src/ai/prompt-templates.js` — prompt templates, `formatPrompt`,
  `validateResponse`, `generateFallbackResponse`, `VERDICT_THRESHOLDS`;
* `src/ai/ai-client.js` — the orchestrator `analyzePrivacyPolicy`, its four
  step runners, `combineAnalysisResults`, `calculateConfidence`,
  `generateFallbackAnalysis`;
* `src/utils/cookie-extractor.js` — `categorizeCookies` and the
  `isThirdParty` classification of Chrome-API cookies;
* `src/utils/privacy-scraper.js` — `getPrivacyRelevanceScore`;
* the content-script and service-worker inlined in the repo —
  `findPrivacyPolicyLinks` priority accumulation, `extractCookieData`
  third-party filter, and the service-worker heuristic
  `analyzePrivacyPolicy`.

JavaScript values that flow through the pipeline are modelled by the
inductive type `Json` (JSON-representable values; numbers are exact
rationals, so IEEE-754 rounding is not modelled — no claim below depends
on float rounding).  JavaScript exceptions are modelled by `Except` /
`Option`; a total Lean function models a JS function that never throws.
-/

namespace CatchClause

/-- JSON-representable JavaScript values.  `null` also stands for
`undefined` (the two are distinguished nowhere in the embedded code paths:
both are falsy, fail `typeof x === 'number'`, `Array.isArray`, and string
comparisons alike). -/
inductive Json where
  | null
  | bool (b : Bool)
  | num (q : ℚ)
  | str (s : String)
  | arr (elems : List Json)
  | obj (fields : List (String × Json))
deriving Repr

/-- JS property access `j[key]`: the first binding of `key` in an object,
`undefined` (modelled as `.null`) for a missing key or a primitive
receiver.  (JS property access on `null`/`undefined` itself throws; on the
embedded code paths validation guarantees the receiver is never
`null`/`undefined` where a field is read.) -/
def Json.get (j : Json) (key : String) : Json :=
  match j with
  | .obj fields => (fields.lookup key).getD Json.null
  | _ => Json.null

/-- JS truthiness of a JSON value (no `NaN` member: numbers are exact). -/
def Json.truthy : Json → Bool
  | .null => false
  | .bool b => b
  | .num q => q ≠ 0
  | .str s => !s.isEmpty
  | .arr _ => true
  | .obj _ => true

/-- `typeof x === 'number'`. -/
def Json.isNum : Json → Bool
  | .num _ => true
  | _ => false

/-- `Array.isArray(x)`. -/
def Json.isArr : Json → Bool
  | .arr _ => true
  | _ => false

/-- Strict equality `x === "s"` against a string literal. -/
def jsStrEq (j : Json) (s : String) : Bool :=
  match j with
  | .str t => t = s
  | _ => false

/-- JS `x > m` where `m` is a number.  Faithful when `x` is a number or
absent (`undefined > m` is `false` in JS); every embedded call site feeds
it a schema-validated number or an absent field, so string/object
coercions are not modelled. -/
def jsGtNum (j : Json) (m : ℚ) : Bool :=
  match j with
  | .num q => q > m
  | _ => false

/-- JS `x || d` on a JSON value: `x` when truthy, else the default. -/
def jsOr (j d : Json) : Json :=
  if j.truthy then j else d

/-- `l` begins with `pat` (element-wise). -/
def listBeginsWith [BEq α] : List α → List α → Bool
  | _, [] => true
  | [], _ :: _ => false
  | a :: as, b :: bs => a == b && listBeginsWith as bs

/-- `pat` occurs as a contiguous run inside `l`. -/
def listContainsList [BEq α] (l pat : List α) : Bool :=
  match l with
  | [] => pat.isEmpty
  | _ :: rest => listBeginsWith l pat || listContainsList rest pat

/-- JS `s.includes(pat)`: substring containment. -/
def strIncludes (s pat : String) : Bool :=
  listContainsList s.toList pat.toList

/-- JS `s.toLowerCase()` (ASCII, which is all the embedded patterns use). -/
def lowerStr (s : String) : String :=
  String.mk (s.toList.map Char.toLower)

/-- A case-insensitive anchored-prefix regex `/^pat/i` (every cookie
pattern in `categorizeCookies` has this shape, with `pat` lowercase)
tested against `name`. -/
def ciStartsWith (name pat : String) : Bool :=
  listBeginsWith (name.toList.map Char.toLower) pat.toList

/-! ## prompt-templates.js -/

/-- One entry of `PROMPT_TEMPLATES`. -/
structure PromptTemplate where
  name : String
  template : String
  maxTokens : ℚ

/-- The own property names of `Object.prototype` (including the
`__proto__` accessor): the prototype of the plain object literal
`PROMPT_TEMPLATES`, whose members a JS bracket lookup finds when the key
is not an own property. -/
def objectPrototypeMemberNames : List String :=
  ["constructor", "hasOwnProperty", "isPrototypeOf", "propertyIsEnumerable",
   "toLocaleString", "toString", "valueOf", "__proto__",
   "__defineGetter__", "__defineSetter__", "__lookupGetter__", "__lookupSetter__"]

/-- Result of the JS bracket lookup `PROMPT_TEMPLATES[templateName]`:
one of the four own template records; a truthy member inherited from
`Object.prototype` (`fnName` is that value's `.name` property — the
member name for the inherited functions, absent for the object the
`__proto__` accessor returns; its `.template` and `.maxTokens` are
`undefined`); or `undefined` (`notFound`). -/
inductive TemplateLookup where
  | found (t : PromptTemplate)
  | inherited (fnName : Option String)
  | notFound

/-- `PROMPT_TEMPLATES[templateName]` — JS property lookup on the
four-key template object literal of `src/ai/prompt-templates.js`,
including the prototype chain: a key that is no own property but names
an `Object.prototype` member yields that (truthy) inherited member, and
only the remaining keys yield `undefined`. -/
def PROMPT_TEMPLATES (templateName : String) : TemplateLookup :=
  if templateName = "SUMMARIZER" then
    TemplateLookup.found
      { name := "privacy_summarizer"
        template := "You are a concise privacy-policy summarizer. Given the following privacy policy text, return:\n• A 2-sentence plain English summary of what this site does with user personal data.\n• A JSON array of the main categories of data collected (e.g., email, name, payment, device, location, IP).\n• Any explicit retention times mentioned.\n\nINPUT:\n\x7bpolicyText\x7d\n\nOUTPUT FORMAT:\n\x7b\n\"summary\": \"…\",\n\"categories\": [\"email\", \"ip\", …],\n\"retention_clauses\": [\"…\"]\n\x7d"
        maxTokens := 500 }
  else if templateName = "COOKIE_ANALYZER" then
    TemplateLookup.found
      { name := "cookie_analyzer"
        template := "You are a cookie policy analyzer. Given cookies extracted from the site and any cookie table text from the policy, return:\n• Number of first-party and third-party cookies.\n• Whether cookies are used for tracking/advertising (yes/no/likely)\n• If cookie categories (strictly-necessary, preferences, statistics, marketing) are explicitly present and which cookies belong to which category.\n\nINPUT:\n\x7bcookieData\x7d\n\nOUTPUT FORMAT: JSON with fields \x7b first_party: n, third_party: n, tracking: true|false|unknown, categories: \x7b…\x7d \x7d"
        maxTokens := 400 }
  else if templateName = "DELETION_ANALYZER" then
    TemplateLookup.found
      { name := "deletion_analyzer"
        template := "You are a privacy-rights assistant. Read the policy and find whether it explains:\n• How a user can request deletion of data.\n• If a deletion process is described, provide step-by-step instructions and any links or emails.\n• If deletion is not described, return \"no deletion info\".\n\nINPUT:\n\x7bpolicyText\x7d\n\nOUTPUT FORMAT: JSON \x7b can_delete: \"yes|no|partial|unknown\", instructions: \"…\" , links: [\"…\"], contacts: [\"…\"] \x7d"
        maxTokens := 300 }
  else if templateName = "RISK_SCORER" then
    TemplateLookup.found
      { name := "risk_scorer"
        template := "You are a privacy risk scoring agent. Given the summarizer output, cookie analysis, and deletion analysis, produce:\n• risk_score (0-100) where 0 = no known issues, 100 = high-risk (massive data sharing, no deletion, third-party trackers)\n• verdict: SAFE | CAUTION | UNSAFE\n• concise reasons (max 5 bullets)\n• recommended user actions (max 4)\n\nINPUT:\n\x7b\n\"summarizer\": \x7bsummarizerResult\x7d,\n\"cookies\": \x7bcookieResult\x7d,\n\"deletion\": \x7bdeletionResult\x7d,\n\"domain\": \"\x7bdomain\x7d\",\n\"url\": \"\x7burl\x7d\"\n\x7d\n\nOUTPUT FORMAT: JSON \x7b \"risk_score\": int, \"verdict\":\"\", \"reasons\":[…], \"actions\":[…] \x7d"
        maxTokens := 400 }
  else if templateName ∈ objectPrototypeMemberNames then
    TemplateLookup.inherited (if templateName = "__proto__" then none else some templateName)
  else TemplateLookup.notFound

/-- One `min`/`max` row of `VERDICT_THRESHOLDS`. -/
structure VerdictRange where
  min : ℚ
  max : ℚ

/-- The three rows of `VERDICT_THRESHOLDS`. -/
structure VerdictThresholds where
  SAFE : VerdictRange
  CAUTION : VerdictRange
  UNSAFE : VerdictRange

/-- `VERDICT_THRESHOLDS` from `src/ai/prompt-templates.js`. -/
def VERDICT_THRESHOLDS : VerdictThresholds :=
  { SAFE := { min := 0, max := 30 }
    CAUTION := { min := 31, max := 70 }
    UNSAFE := { min := 71, max := 100 } }

/-- JSON serialization of a rational (all serialized pipeline numbers are
integers, printed the way JS prints them). -/
def ratToJsStr (q : ℚ) : String :=
  if q.den = 1 then toString q.num else toString q

mutual

/-- `JSON.stringify(value, null, 2)` modulo the pretty-printing
whitespace and string escaping, neither of which any embedded claim
inspects (the result is only interpolated into prompt text). -/
def jsonStringify : Json → String
  | .null => "null"
  | .bool true => "true"
  | .bool false => "false"
  | .num q => ratToJsStr q
  | .str s => "\"" ++ s ++ "\""
  | .arr l => "[" ++ jsonStringifyList l ++ "]"
  | .obj fs => "\x7b" ++ jsonStringifyFields fs ++ "\x7d"

def jsonStringifyList : List Json → String
  | [] => ""
  | [x] => jsonStringify x
  | x :: xs => jsonStringify x ++ "," ++ jsonStringifyList xs

def jsonStringifyFields : List (String × Json) → String
  | [] => ""
  | [(k, v)] => "\"" ++ k ++ "\":" ++ jsonStringify v
  | (k, v) :: rest => "\"" ++ k ++ "\":" ++ jsonStringify v ++ "," ++ jsonStringifyFields rest

end

/-- `typeof value === 'object' ? JSON.stringify(value, null, 2) : String(value)` —
how `formatPrompt` turns one variable into replacement text (in JS
`typeof null === 'object'`, so `null` is stringified too). -/
def jsSerializeVar : Json → String
  | .str s => s
  | .num q => ratToJsStr q
  | .bool true => "true"
  | .bool false => "false"
  | j => jsonStringify j

/-- Result record of `formatPrompt`.  `prompt` / `name` are `none` when
the JS field is `undefined` (possible only via an inherited-member
lookup). -/
structure FormattedPrompt where
  prompt : Option String
  maxTokens : ℚ
  name : Option String

/-- The two ways `formatPrompt` can throw: its own
`Unknown prompt template` error, and the `TypeError` of calling
`.replace` on the `undefined` `template.template` of an inherited
`Object.prototype` member. -/
inductive JsThrow where
  | unknownTemplate (message : String)
  | typeError
deriving DecidableEq, Repr

/-- JS `q || d` on a number (`0` is falsy; no `NaN`, numbers are
exact). -/
def jsOrNum (q d : ℚ) : ℚ :=
  if q = 0 then d else q

/-- `formatPrompt(templateName, variables)`: throws the
`Unknown prompt template` error only when the bracket lookup yields
`undefined`; for a truthy inherited `Object.prototype` member the
`!template` guard does not fire, so the call proceeds with
`template.template === undefined` — the first substitution then throws
a `TypeError` (`undefined.replace`), and with no variables the call
returns `{prompt: undefined, maxTokens: undefined || 500,
name: template.name}` normally.  On an own template every `{key}`
placeholder is replaced by the serialized value (the JS loop runs over
`Object.entries(variables)` in insertion order, modelled by the list
order). -/
def formatPrompt (templateName : String) (vars : List (String × Json)) :
    Except JsThrow FormattedPrompt :=
  match PROMPT_TEMPLATES templateName with
  | .notFound => .error (.unknownTemplate ("Unknown prompt template: " ++ templateName))
  | .inherited fnName =>
      match vars with
      | [] => .ok { prompt := none, maxTokens := 500, name := fnName }
      | _ :: _ => .error .typeError
  | .found t =>
      let formattedPrompt := vars.foldl
        (fun acc kv => acc.replace ("\x7b" ++ kv.1 ++ "\x7d") (jsSerializeVar kv.2))
        t.template
      .ok { prompt := some formattedPrompt, maxTokens := jsOrNum t.maxTokens 500, name := some t.name }

/-- The `switch` body of `validateResponse`, applied to the already
parsed JSON value (`parsed = JSON.parse(response)`).  The `SUMMARIZER`
arm returns the truthiness of `parsed.summary && Array.isArray(...)`;
the `default` arm returns `true`. -/
def validateResponseParsed (templateName : String) (parsed : Json) : Bool :=
  if templateName = "SUMMARIZER" then
    (parsed.get "summary").truthy && (parsed.get "categories").isArr
  else if templateName = "COOKIE_ANALYZER" then
    (parsed.get "first_party").isNum && (parsed.get "third_party").isNum
  else if templateName = "DELETION_ANALYZER" then
    (match parsed.get "can_delete" with
     | .str s => ["yes", "no", "partial", "unknown"].contains s
     | _ => false)
  else if templateName = "RISK_SCORER" then
    (parsed.get "risk_score").isNum &&
      (match parsed.get "verdict" with
       | .str s => ["SAFE", "CAUTION", "UNSAFE"].contains s
       | _ => false) &&
      (parsed.get "reasons").isArr
  else
    true

/-- `validateResponse(templateName, response)` where the response string
is represented by its parse result: `none` models a string `JSON.parse`
rejects (the `catch` returns `false`), `some parsed` a string parsing to
`parsed`.  Property accesses inside the `switch` sit in the same `try`,
so a `parsed` of `null` (whose property access throws) also yields
`false` — matched by `Json.get` returning a non-truthy non-number
non-array for `.null` in every arm that reads a field. -/
def validateResponse (templateName : String) (response : Option Json) : Bool :=
  match response with
  | none => false
  | some parsed => validateResponseParsed templateName parsed

/-- The scraped cookie-statistics object produced by `extractCookieData`
(the fields `generateFallbackResponse` and the fallback analyses read;
counts are integral JS numbers). -/
structure ScrapedCookieData where
  cookieCount : ℚ := 0
  thirdPartyCookies : ℚ := 0
  thirdPartyDomains : List String := []

/-- The `inputData` argument of `generateFallbackResponse`, holding
exactly the fields its four arms read, at the types its call sites
supply: `{policyText}` (summarizer / deletion steps), `{cookieData}`
(cookie step, scraped statistics), and the combined step data whose
`cookies` / `deletion` are the preceding steps' JSON results (risk
step).  Unread fields of the JS argument objects are not modelled. -/
structure FallbackInput where
  policyText : Option String := none
  cookieData : Option ScrapedCookieData := none
  cookies : Json := Json.null
  deletion : Json := Json.null

/-- `generateFallbackResponse(templateName, inputData)` — total, like the
JS function, which throws on no input of the modelled shapes. -/
def generateFallbackResponse (templateName : String) (inputData : FallbackInput) : Json :=
  if templateName = "SUMMARIZER" then
    .obj [("summary", .str "Unable to analyze privacy policy automatically. Manual review recommended."),
          ("categories", .arr [.str "unknown"]),
          ("retention_clauses", .arr [.str "not specified"])]
  else if templateName = "COOKIE_ANALYZER" then
    let cookieCount := ((inputData.cookieData.map (·.cookieCount)).getD 0)
    let thirdParty := ((inputData.cookieData.map (·.thirdPartyCookies)).getD 0)
    .obj [("first_party", .num (cookieCount - thirdParty)),
          ("third_party", .num thirdParty),
          ("tracking", .str (if thirdParty > 0 then "likely" else "unknown")),
          ("categories", .obj [])]
  else if templateName = "DELETION_ANALYZER" then
    .obj [("can_delete", .str "unknown"),
          ("instructions", .str "Contact site support for data deletion requests"),
          ("links", .arr []),
          ("contacts", .arr [])]
  else if templateName = "RISK_SCORER" then
    let riskScore : ℚ := 50
    let riskScore := riskScore + (if jsGtNum (inputData.cookies.get "third_party") 5 then 20 else 0)
    let riskScore := riskScore + (if jsStrEq (inputData.deletion.get "can_delete") "no" then 15 else 0)
    let verdict : String :=
      if riskScore < 30 then "SAFE" else if riskScore < 70 then "CAUTION" else "UNSAFE"
    .obj [("risk_score", .num (min riskScore 100)),
          ("verdict", .str verdict),
          ("reasons", .arr [.str "AI analysis unavailable", .str "Manual review recommended"]),
          ("actions", .arr [.str "Review privacy policy manually", .str "Contact site for data practices"])]
  else
    .obj [("error", .str "Unknown template for fallback")]

/-! ## cookie-extractor.js -/

/-- The six purpose buckets of `categorizeCookies`. -/
inductive CookieCategory where
  | essential
  | analytics
  | advertising
  | preferences
  | social
  | unknown
deriving DecidableEq, Repr

/-- A cookie record as `categorizeCookies` consumes it (the fields the
categorizer reads or copies into its buckets). -/
structure CookieRecord where
  name : String
  domain : String := ""
  isThirdParty : Bool := false

/-- The anchored case-insensitive name patterns of each group in
`categorizeCookies` (each JS pattern is `/^pat/i`; `unknown` has no
patterns). -/
def categoryPatterns : CookieCategory → List String
  | .essential => ["session", "csrf", "auth", "login", "security", "consent", "necessary", "required"]
  | .analytics => ["_ga", "_gid", "_gtm", "_gat", "google", "analytics", "tracking", "stats", "metrics", "utm", "hotjar", "mixpanel", "amplitude"]
  | .advertising => ["_fbp", "_fbc", "facebook", "fb", "doubleclick", "googleads", "adsystem", "ad", "marketing", "retargeting", "conversion"]
  | .preferences => ["pref", "settings", "theme", "language", "locale", "timezone", "currency"]
  | .social => ["twitter", "linkedin", "instagram", "youtube", "social", "share", "like"]
  | .unknown => []

/-- The iteration order of `Object.entries(patterns)` in
`categorizeCookies` — the insertion order of the object literal. -/
def orderedCategories : List CookieCategory :=
  [.essential, .analytics, .advertising, .preferences, .social]

/-- All six buckets of the returned `categories` object, in insertion
order. -/
def allCategories : List CookieCategory :=
  [.essential, .analytics, .advertising, .preferences, .social, .unknown]

/-- `categoryPatterns.some(pattern => pattern.test(cookie.name))`. -/
def matchesCategory (name : String) (c : CookieCategory) : Bool :=
  (categoryPatterns c).any (fun p => ciStartsWith name p)

/-- The category the `for`-loop of `categorizeCookies` assigns to a
cookie name: the first group in `orderedCategories` whose pattern list
matches (the loop `break`s at the first hit), else `unknown`. -/
def categorizeName (name : String) : CookieCategory :=
  (orderedCategories.find? (fun c => matchesCategory name c)).getD .unknown

/-- The bucket of category `c` built by `categorizeCookies(cookies)`:
the single pass appends each cookie to exactly the bucket of its
first-matching group (or `unknown`), so bucket `c` is the in-order
sublist of cookies whose assigned category is `c`. -/
def categorizeCookies (cookies : List CookieRecord) (c : CookieCategory) : List CookieRecord :=
  cookies.filter (fun k => categorizeName k.name == c)

/-- `isThirdParty: !cookie.domain.includes(currentDomain)` — the
classification given to every Chrome-API cookie in
`extractCookieData` of `src/utils/cookie-extractor.js` (line 37): no
leading-dot stripping, and only one direction of containment. -/
def isThirdPartyChromeCookie (cookieDomain currentDomain : String) : Bool :=
  !(strIncludes cookieDomain currentDomain)

/-- `cookie.domain.startsWith('.') ? cookie.domain.substring(1) : cookie.domain`. -/
def stripLeadingDot (d : String) : String :=
  match d.toList with
  | '.' :: rest => String.mk rest
  | _ => d

/-- The third-party test of the content-script `extractCookieData`
(tests/test-runner.js lines 1350–1358): strip one leading dot, then
`!currentDomain.includes(cookieDomain) && !cookieDomain.includes(currentDomain)`. -/
def isThirdPartyContentScript (cookieDomain currentDomain : String) : Bool :=
  let cd := stripLeadingDot cookieDomain
  !(strIncludes currentDomain cd) && !(strIncludes cd currentDomain)

/-- Refinement spec for C5, following the claim's words: third-party
exactly when the dot-stripped cookie domain is not a substring of the
page domain and the page domain is not a substring of the cookie
domain. -/
def claimThirdParty (cookieDomain pageDomain : String) : Bool :=
  let cd := stripLeadingDot cookieDomain
  !(strIncludes pageDomain cd) && !(strIncludes cd pageDomain)

/-! ## Link ranking: content-script `findPrivacyPolicyLinks` and
`privacy-scraper.js` `getPrivacyRelevanceScore` -/

/-- `urlPatterns` of the content-script `findPrivacyPolicyLinks`. -/
def urlPatterns : List String :=
  ["privacy", "privacy-policy", "privacy_policy", "privacypolicy",
   "data-protection", "data-policy", "cookie", "cookies", "cookie-policy",
   "terms", "terms-of-service", "terms-and-conditions", "legal", "gdpr", "ccpa",
   "#privacy", "#privacy-policy", "#privacy_policy", "#data-protection",
   "#developer_policy", "#user_privacy", "#privacy_notice"]

/-- `textPatterns` of the content-script `findPrivacyPolicyLinks`. -/
def textPatterns : List String :=
  ["privacy policy", "privacy statement", "privacy notice", "privacy",
   "data protection", "data policy", "data usage", "data handling",
   "cookie policy", "cookie notice", "cookies",
   "terms of service", "terms and conditions", "terms of use", "terms",
   "legal", "gdpr", "ccpa", "california privacy",
   "developer policy", "api privacy", "user privacy"]

/-- `pattern.startsWith('#')`. -/
def patStartsHash (p : String) : Bool :=
  match p.toList with
  | '#' :: _ => true
  | _ => false

/-- The whitespace class matched by the `/\s+/` and `[^\w\s]` regexes, on
the character set the link texts use. -/
def isJsWhitespace (c : Char) : Bool :=
  c = ' ' || c = '\t' || c = '\n' || c = '\r'

/-- JS `\w` word characters (ASCII letters, digits, underscore). -/
def isWordChar (c : Char) : Bool :=
  c.isAlphanum || c = '_'

def collapseWsAux : Bool → List Char → List Char
  | _, [] => []
  | prevWs, c :: rest =>
      if isJsWhitespace c then
        if prevWs then collapseWsAux true rest
        else ' ' :: collapseWsAux true rest
      else c :: collapseWsAux false rest

/-- `text.replace(/\s+/g, ' ')`. -/
def collapseWs (s : String) : String :=
  String.mk (collapseWsAux false s.toList)

/-- `text.replace(/[^\w\s]/g, '')`. -/
def stripNonWord (s : String) : String :=
  String.mk (s.toList.filter (fun c => isWordChar c || isJsWhitespace c))

/-- One `textPatterns.some(...)` test of the content script: multi-word
patterns additionally try whitespace-collapsed and punctuation-stripped
variants of the link text. -/
def textPatternMatches (linkText pat : String) : Bool :=
  if strIncludes pat " " then
    strIncludes linkText pat ||
    strIncludes (collapseWs linkText) pat ||
    strIncludes (stripNonWord linkText) (stripNonWord pat)
  else
    strIncludes linkText pat

/-- One `urlPatterns.some(...)` test of the content script: fragment
patterns are also tried against the raw (non-lowercased) `href`. -/
def urlPatternMatches (linkUrl href pat : String) : Bool :=
  if patStartsHash pat then
    strIncludes linkUrl pat || strIncludes href pat
  else
    strIncludes linkUrl pat

/-- The special `/legal`-page-with-privacy-fragment rule of the content
script. -/
def isLegalWithPrivacyFragment (linkUrl href : String) : Bool :=
  (strIncludes linkUrl "/legal" || strIncludes linkUrl "legal") &&
  (strIncludes href "#privacy" || strIncludes href "#developer_policy" || strIncludes href "#data")

/-- `isPrivacyLink` of the content-script `findPrivacyPolicyLinks`:
`urlMatches || textMatches || isLegalWithPrivacyFragment`.  `linkText`
is the loop's lowercased and trimmed `textContent`; `linkUrl` is the
lowercased `href`. -/
def contentScriptIsPrivacyLink (href linkText : String) : Bool :=
  let linkUrl := lowerStr href
  urlPatterns.any (fun p => urlPatternMatches linkUrl href p) ||
  textPatterns.any (fun p => textPatternMatches linkText p) ||
  isLegalWithPrivacyFragment linkUrl href

/-- The priority accumulation of the content-script
`findPrivacyPolicyLinks` (tests/test-runner.js lines 1259–1280):
`+10` for `'privacy policy'` in the text or `'privacy-policy'` in the
resolved URL, `+5` for `'privacy'`, `+1` for `'legal'` (the code has no
`'terms'` bonus), `+3` when the link host equals the page host. -/
def contentScriptLinkPriority (linkText absoluteUrl linkDomain currentDomain : String) : ℚ :=
  0
  + (if strIncludes linkText "privacy policy" || strIncludes absoluteUrl "privacy-policy" then 10 else 0)
  + (if strIncludes linkText "privacy" || strIncludes absoluteUrl "privacy" then 5 else 0)
  + (if strIncludes linkText "legal" || strIncludes absoluteUrl "legal" then 1 else 0)
  + (if linkDomain = currentDomain then 3 else 0)

/-- Refinement spec for C6, following the claim's words: identical to
`contentScriptLinkPriority` except that the `+1` generic bonus fires for
a `'legal'` **or** `'terms'` term. -/
def claimLinkPriority (linkText absoluteUrl linkDomain currentDomain : String) : ℚ :=
  0
  + (if strIncludes linkText "privacy policy" || strIncludes absoluteUrl "privacy-policy" then 10 else 0)
  + (if strIncludes linkText "privacy" || strIncludes absoluteUrl "privacy" then 5 else 0)
  + (if strIncludes linkText "legal" || strIncludes absoluteUrl "legal"
        || strIncludes linkText "terms" || strIncludes absoluteUrl "terms" then 1 else 0)
  + (if linkDomain = currentDomain then 3 else 0)

/-- `getPrivacyRelevanceScore(text, url)` of
`src/utils/privacy-scraper.js`: three `forEach` accumulations over the
high- (+10), medium- (+5) and low-priority (+1) term lists. -/
def getPrivacyRelevanceScore (text url : String) : ℚ :=
  let score : ℚ := 0
  let score := ["privacy policy", "privacy-policy", "data protection"].foldl
    (fun sc term => if strIncludes text term || strIncludes url term then sc + 10 else sc) score
  let score := ["privacy", "cookie", "data"].foldl
    (fun sc term => if strIncludes text term || strIncludes url term then sc + 5 else sc) score
  let score := ["legal", "terms"].foldl
    (fun sc term => if strIncludes text term || strIncludes url term then sc + 1 else sc) score
  score

/-! ## ai-client.js — the four-step orchestrator -/

/-- JS `x?.[0]` indexing used on `retention_clauses`. -/
def jsIndex0 : Json → Json
  | .arr (x :: _) => x
  | .arr [] => Json.null
  | .str s =>
      match s.toList with
      | c :: _ => .str (String.mk [c])
      | [] => Json.null
  | .obj fs => (fs.lookup "0").getD Json.null
  | _ => Json.null

/-- JS `+` on two step-result fields.  Both operands are numbers on every
pipeline path (schema-validated or fallback-produced); `.null` stands for
the `NaN` a stray non-number would yield, which compares false like
`NaN`. -/
def jsAddNums : Json → Json → Json
  | .num a, .num b => .num (a + b)
  | _, _ => Json.null

/-- JS `x && x.length > n` for the confidence bonuses: truthy strings and
arrays expose `length`; every other truthy value has `undefined.length`,
and `undefined > n` is false. -/
def truthyLenGt (j : Json) (n : ℚ) : Bool :=
  match j with
  | .str s => !s.isEmpty && decide ((s.length : ℚ) > n)
  | .arr l => decide ((l.length : ℚ) > n)
  | _ => false

/-- `tracking === true || tracking === "likely"`. -/
def jsIsTrueOrLikely : Json → Bool
  | .bool true => true
  | .str s => s = "likely"
  | _ => false

/-- `extractDataUseFromSummary(summarizerResult)`: maps over
`summarizerResult.categories`.  `none` models the `TypeError` JS throws
when `categories` is not an array (unreachable on pipeline paths, where
the summarizer result is schema-validated or fallback-produced). -/
def extractDataUseFromSummary (summarizerResult : Json) : Option Json :=
  match summarizerResult.get "categories" with
  | .arr cats =>
      some (.arr (cats.map (fun category =>
        .obj [("type", category),
              ("purpose", .str "not specified"),
              ("retention", jsOr (jsIndex0 (summarizerResult.get "retention_clauses")) (.str "not specified")),
              ("shared_with", .arr [])])))
  | _ => none

/-- `{ name: c.name, domain: c.domain }` for one example cookie; `none`
models the `TypeError` of a property access on a `null` element. -/
def cookieExampleEntry : Json → Option Json
  | .null => none
  | c => some (.obj [("name", c.get "name"), ("domain", c.get "domain")])

/-- One `Object.entries(categories).map(...)` entry of the cookie
summary in `combineAnalysisResults`; `none` models the `TypeError` of
`cookies.slice(...).map` when the category value is not an array. -/
def cookieSummaryEntry : String × Json → Option Json
  | (category, .arr cookieList) =>
      ((cookieList.take 3).mapM cookieExampleEntry).map (fun examples =>
        .obj [("category", .str category),
              ("count", .num (cookieList.length : ℚ)),
              ("examples", .arr examples)])
  | _ => none

/-- `Object.entries(x)`. -/
def jsEntries : Json → List (String × Json)
  | .obj fs => fs
  | .arr l => l.enum.map (fun p => (toString p.1, p.2))
  | .str s => s.toList.enum.map (fun p => (toString p.1, .str (String.mk [p.2])))
  | _ => []

/-- The `cookieSummary` local of `combineAnalysisResults`:
`data.cookies.categories ? Object.entries(...).map(...) : []`. -/
def combineCookieSummary (cookies : Json) : Option Json :=
  if (cookies.get "categories").truthy then
    ((jsEntries (cookies.get "categories")).mapM cookieSummaryEntry).map Json.arr
  else
    some (.arr [])

/-- The `data` record `combineAnalysisResults` and `calculateConfidence`
receive: the four step results (each an AI-parsed or fallback JSON
value) plus identity and timestamp. -/
structure CombinedData where
  domain : String := ""
  url : String := ""
  summarizer : Json := Json.null
  cookies : Json := Json.null
  deletion : Json := Json.null
  risk : Json := Json.null
  timestamp : ℚ := 0

/-- `calculateConfidence(data)`: base `0.5`, `+0.2` for a summary longer
than 50, `+0.1` for any cookies, `+0.1` for a known deletion status,
`+0.1` for more than one risk reason, capped by `Math.min(·, 1.0)`. -/
def calculateConfidence (data : CombinedData) : ℚ :=
  let confidence : ℚ := 0.5
  let confidence := confidence + (if truthyLenGt (data.summarizer.get "summary") 50 then 0.2 else 0)
  let confidence := confidence + (if jsGtNum (jsAddNums (data.cookies.get "first_party") (data.cookies.get "third_party")) 0 then 0.1 else 0)
  let confidence := confidence + (if !(jsStrEq (data.deletion.get "can_delete") "unknown") then 0.1 else 0)
  let confidence := confidence + (if truthyLenGt (data.risk.get "reasons") 1 then 0.1 else 0)
  min confidence 1

/-- `deletion` block of the final report. -/
structure ReportDeletion where
  can_user_delete : Json
  how : Json
  contacts_found : Json

/-- `cookies` block of the final report. -/
structure ReportCookies where
  cookie_count : Json
  third_party_cookies : Json
  tracking_cookies_detected : Bool
  cookies_summary : Json

/-- The final report object of `analyzePrivacyPolicy` /
`generateFallbackAnalysis`. -/
structure AnalysisReport where
  domain : String
  url : String
  summary : Json
  data_use : Json
  deletion : ReportDeletion
  cookies : ReportCookies
  risk_score : Json
  verdict : Json
  reasons : Json
  actions : Json
  confidence : ℚ
  timestamp : ℚ

/-- `combineAnalysisResults(data)` (ai-client.js lines 156–187).  `none`
models the `TypeError`s of `extractDataUseFromSummary` / the cookie
summary (caught by the orchestrator's outer `catch`). -/
def combineAnalysisResults (data : CombinedData) : Option AnalysisReport :=
  match combineCookieSummary data.cookies, extractDataUseFromSummary data.summarizer with
  | some cookieSummary, some dataUse =>
      some { domain := data.domain
             url := data.url
             summary := data.summarizer.get "summary"
             data_use := dataUse
             deletion := { can_user_delete := data.deletion.get "can_delete"
                           how := data.deletion.get "instructions"
                           contacts_found := jsOr (data.deletion.get "contacts") (.arr []) }
             cookies := { cookie_count := jsAddNums (data.cookies.get "first_party") (data.cookies.get "third_party")
                          third_party_cookies := data.cookies.get "third_party"
                          tracking_cookies_detected := jsIsTrueOrLikely (data.cookies.get "tracking")
                          cookies_summary := cookieSummary }
             risk_score := data.risk.get "risk_score"
             verdict := data.risk.get "verdict"
             reasons := data.risk.get "reasons"
             actions := jsOr (data.risk.get "actions") (.arr [])
             confidence := calculateConfidence data
             timestamp := data.timestamp }
  | _, _ => none

/-- The `analysisData` argument of the ai-client orchestrator (the
fields it reads; `timestamp` stands for the ambient `Date.now()`). -/
structure AnalysisData where
  domain : String := ""
  url : String := ""
  privacyPolicyText : Option String := none
  cookies : Option ScrapedCookieData := none
  timestamp : ℚ := 0

/-- `generateFallbackAnalysis(analysisData)` (ai-client.js lines
213–248) — the whole-pipeline fallback used when even
`combineAnalysisResults` throws. -/
def generateFallbackAnalysis (d : AnalysisData) : AnalysisReport :=
  let cookieCount := (d.cookies.map (·.cookieCount)).getD 0
  let thirdPartyCount := (d.cookies.map (·.thirdPartyCookies)).getD 0
  let riskScore : ℚ := 30
  let riskScore := riskScore + (if thirdPartyCount > 5 then 30 else 0)
  let riskScore := riskScore + (if thirdPartyCount > 10 then 20 else 0)
  let riskScore := riskScore + (if (match d.privacyPolicyText with | none => true | some s => s.isEmpty) then 20 else 0)
  let verdict : String := if riskScore < 40 then "SAFE" else if riskScore < 70 then "CAUTION" else "UNSAFE"
  { domain := d.domain
    url := d.url
    summary := .str "AI analysis unavailable. Manual privacy policy review recommended."
    data_use := .arr [.obj [("type", .str "unknown"), ("purpose", .str "unknown"), ("retention", .str "unknown"), ("shared_with", .arr [])]]
    deletion := { can_user_delete := .str "unknown"
                  how := .str "Contact website support for data deletion requests"
                  contacts_found := .arr [] }
    cookies := { cookie_count := .num cookieCount
                 third_party_cookies := .num thirdPartyCount
                 tracking_cookies_detected := decide (thirdPartyCount > 0)
                 cookies_summary := .arr [] }
    risk_score := .num (min riskScore 100)
    verdict := .str verdict
    reasons := .arr [.str "AI analysis unavailable", .str "High number of third-party cookies detected"]
    actions := .arr [.str "Review privacy policy manually", .str "Consider blocking third-party cookies"]
    confidence := 0.3
    timestamp := d.timestamp }

/-- `runSummarizer(policyText)`: short or missing text short-circuits to
the fallback; otherwise the AI response is used exactly when it
validates.  `ai = none` models a throwing AI call; `some parsed` a
response string parsing to `parsed` (an unparseable response fails
validation identically). -/
def runSummarizer (ai : Option Json) (policyText : Option String) : Json :=
  match policyText with
  | none => generateFallbackResponse "SUMMARIZER" { policyText := none }
  | some s =>
      if s.isEmpty || s.length < 100 then
        generateFallbackResponse "SUMMARIZER" { policyText := some s }
      else
        match ai with
        | some parsed =>
            if validateResponseParsed "SUMMARIZER" parsed then parsed
            else generateFallbackResponse "SUMMARIZER" { policyText := some s }
        | none => generateFallbackResponse "SUMMARIZER" { policyText := some s }

/-- `runCookieAnalysis(cookieData)`.  (The preceding
`formatPrompt('COOKIE_ANALYZER', …)` call cannot throw for this fixed
known name, so it is not re-modelled in the runner.) -/
def runCookieAnalysis (ai : Option Json) (cookieData : Option ScrapedCookieData) : Json :=
  match ai with
  | some parsed =>
      if validateResponseParsed "COOKIE_ANALYZER" parsed then parsed
      else generateFallbackResponse "COOKIE_ANALYZER" { cookieData := cookieData }
  | none => generateFallbackResponse "COOKIE_ANALYZER" { cookieData := cookieData }

/-- `runDeletionAnalysis(policyText)`. -/
def runDeletionAnalysis (ai : Option Json) (policyText : Option String) : Json :=
  match ai with
  | some parsed =>
      if validateResponseParsed "DELETION_ANALYZER" parsed then parsed
      else generateFallbackResponse "DELETION_ANALYZER" { policyText := policyText }
  | none => generateFallbackResponse "DELETION_ANALYZER" { policyText := policyText }

/-- `runRiskAssessment(combinedData)`: the fallback receives the
combined data, whose `cookies` / `deletion` are the earlier steps'
results. -/
def runRiskAssessment (ai : Option Json) (_summarizer cookies deletion : Json) : Json :=
  match ai with
  | some parsed =>
      if validateResponseParsed "RISK_SCORER" parsed then parsed
      else generateFallbackResponse "RISK_SCORER" { cookies := cookies, deletion := deletion }
  | none => generateFallbackResponse "RISK_SCORER" { cookies := cookies, deletion := deletion }

/-- The per-step outcome of the opaque AI collaborator: `none` = the
call threw (unavailable / timeout); `some parsed` = it returned a string
parsing to `parsed`. -/
structure AIOutcomes where
  summarizer : Option Json := none
  cookieStep : Option Json := none
  deletionStep : Option Json := none
  riskStep : Option Json := none

/-- `analyzePrivacyPolicy(analysisData)` of ai-client.js: the four
sequential steps, merged by `combineAnalysisResults`; the outer `catch`
(reachable only when combining throws) substitutes
`generateFallbackAnalysis`. -/
def analyzePrivacyPolicy (ai : AIOutcomes) (d : AnalysisData) : AnalysisReport :=
  let summarizerResult := runSummarizer ai.summarizer d.privacyPolicyText
  let cookieResult := runCookieAnalysis ai.cookieStep d.cookies
  let deletionResult := runDeletionAnalysis ai.deletionStep d.privacyPolicyText
  let riskResult := runRiskAssessment ai.riskStep summarizerResult cookieResult deletionResult
  match combineAnalysisResults
      { domain := d.domain, url := d.url
        summarizer := summarizerResult, cookies := cookieResult
        deletion := deletionResult, risk := riskResult
        timestamp := d.timestamp } with
  | some report => report
  | none => generateFallbackAnalysis d

/-! ## Service-worker heuristic `analyzePrivacyPolicy` -/

/-- The two banner fields the service-worker heuristic reads. -/
structure BannerData where
  hasBanner : Bool := false
  hasRejectButton : Bool := false

/-- The message payload the service-worker heuristic reads. -/
structure SwAnalysisData where
  domain : String := ""
  url : String := ""
  cookies : Option ScrapedCookieData := none
  privacyPolicyLinks : Option (List String) := none
  privacyPolicyText : Option String := none
  cookieBannerData : Option BannerData := none
  timestamp : ℚ := 0

/-- The report of the service-worker heuristic (its `cookies` block has
an extra `thirdPartyDomains` field, so it is kept as a raw object). -/
structure SwReport where
  domain : String
  url : String
  summary : String
  data_use : Json
  deletion : ReportDeletion
  cookies : Json
  risk_score : ℚ
  verdict : String
  reasons : List String
  actions : List String
  confidence : ℚ
  timestamp : ℚ

/-- The inline heuristic `analyzePrivacyPolicy` of the service worker
(tests/test-runner.js lines 869–925): base risk 30, `+30`/`+20` for
third-party cookie counts over 5 / over 10, `+20` for no policy link,
`+15` for missing or short policy text; verdict `SAFE` below 40,
`CAUTION` below 70, else `UNSAFE`; fixed confidence `0.6`. -/
def swAnalyzePrivacyPolicy (d : SwAnalysisData) : SwReport :=
  let cookieCount := (d.cookies.map (·.cookieCount)).getD 0
  let thirdPartyCount := (d.cookies.map (·.thirdPartyCookies)).getD 0
  let thirdPartyDomains := (d.cookies.map (·.thirdPartyDomains)).getD []
  let hasPrivacyPolicy :=
    match d.privacyPolicyLinks with
    | none => false
    | some links => decide (links.length > 0)
  let riskScore : ℚ := 30
  let riskScore := riskScore + (if thirdPartyCount > 5 then 30 else 0)
  let riskScore := riskScore + (if thirdPartyCount > 10 then 20 else 0)
  let riskScore := riskScore + (if !hasPrivacyPolicy then 20 else 0)
  let riskScore := riskScore +
    (if (match d.privacyPolicyText with
         | none => true
         | some s => s.isEmpty || s.length < 100) then 15 else 0)
  let verdict : String := if riskScore < 40 then "SAFE" else if riskScore < 70 then "CAUTION" else "UNSAFE"
  let reasons :=
    (if thirdPartyCount > 5 then ["High number of tracking cookies"] else []) ++
    (if !hasPrivacyPolicy then ["No privacy policy found"] else []) ++
    (if (match d.cookieBannerData with
         | some b => b.hasBanner && !b.hasRejectButton
         | none => false) then ["Cookie banner without reject option"] else [])
  { domain := d.domain
    url := d.url
    summary := "This site has " ++ ratToJsStr cookieCount ++ " cookies (" ++ ratToJsStr thirdPartyCount ++ " third-party). " ++ (if hasPrivacyPolicy then "Privacy policy found." else "No privacy policy detected.")
    data_use := .arr [.obj [("type", .str "cookies"), ("purpose", .str "tracking and analytics"), ("retention", .str "varies"), ("shared_with", if thirdPartyCount > 0 then .arr [.str "third parties"] else .arr [])]]
    deletion := { can_user_delete := .str (if hasPrivacyPolicy then "unknown" else "no")
                  how := .str (if hasPrivacyPolicy then "Check privacy policy for details" else "No privacy policy available")
                  contacts_found := .arr [] }
    cookies := .obj [("cookie_count", .num cookieCount),
                     ("third_party_cookies", .num thirdPartyCount),
                     ("thirdPartyDomains", .arr (thirdPartyDomains.map Json.str)),
                     ("tracking_cookies_detected", .bool (decide (thirdPartyCount > 0))),
                     ("cookies_summary", .arr [])]
    risk_score := min riskScore 100
    verdict := verdict
    reasons := reasons
    actions := [(if thirdPartyCount > 0 then "Consider blocking third-party cookies" else "Cookie usage appears minimal"),
                (if hasPrivacyPolicy then "Review privacy policy manually" else "Request privacy information from site")]
    confidence := 0.6
    timestamp := d.timestamp }

/-! ## Helper lemmas -/

/-- Unfolding of the `RISK_SCORER` arm of `generateFallbackResponse`. -/
theorem generateFallbackResponse_risk (input : FallbackInput) :
    generateFallbackResponse "RISK_SCORER" input =
      Json.obj [("risk_score", Json.num (min ((50 + (if jsGtNum (input.cookies.get "third_party") 5 then 20 else 0)) + (if jsStrEq (input.deletion.get "can_delete") "no" then 15 else 0)) 100)),
        ("verdict", Json.str (if ((50 + (if jsGtNum (input.cookies.get "third_party") 5 then 20 else 0)) + (if jsStrEq (input.deletion.get "can_delete") "no" then 15 else 0) : ℚ) < 30 then "SAFE" else if ((50 + (if jsGtNum (input.cookies.get "third_party") 5 then 20 else 0)) + (if jsStrEq (input.deletion.get "can_delete") "no" then 15 else 0) : ℚ) < 70 then "CAUTION" else "UNSAFE")),
        ("reasons", Json.arr [Json.str "AI analysis unavailable", Json.str "Manual review recommended"]),
        ("actions", Json.arr [Json.str "Review privacy policy manually", Json.str "Contact site for data practices"])] :=
  rfl

/-- The fallback verdict string is always one of the three legal
verdicts. -/
theorem verdictString_mem (q : ℚ) :
    (["SAFE", "CAUTION", "UNSAFE"] : List String).contains
      (if q < 30 then "SAFE" else if q < 70 then "CAUTION" else "UNSAFE") = true := by
  split_ifs <;> rfl

/-- A fallback verdict computed from a score of at least 30 is never
`SAFE`. -/
theorem verdictString_ne_safe (q : ℚ) (h : ¬ q < 30) :
    (if q < 30 then "SAFE" else if q < 70 then "CAUTION" else "UNSAFE") ≠ "SAFE" := by
  rw [if_neg h]; split_ifs <;> decide

/-- `combineAnalysisResults` stores exactly `calculateConfidence data`
in the report it returns. -/
theorem combineAnalysisResults_confidence (data : CombinedData) (r : AnalysisReport)
    (h : combineAnalysisResults data = some r) :
    r.confidence = calculateConfidence data := by
  unfold combineAnalysisResults at h
  rcases hcs : combineCookieSummary data.cookies with _ | cs <;> rw [hcs] at h
  · simp at h
  · rcases hdu : extractDataUseFromSummary data.summarizer with _ | du <;> rw [hdu] at h
    · simp at h
    · simp only [Option.some.injEq] at h
      subst h
      rfl

/-- A fold that conditionally adds a non-negative bonus preserves
non-negativity of the accumulator. -/
theorem foldl_bonus_nonneg (f : String → Bool) (bonus : ℚ) (hb : 0 ≤ bonus) :
    ∀ (terms : List String) (init : ℚ), 0 ≤ init →
      0 ≤ terms.foldl (fun sc term => if f term then sc + bonus else sc) init
  | [], _, h => h
  | t :: ts, init, h => by
      simp only [List.foldl_cons]
      exact foldl_bonus_nonneg f bonus hb ts _ (by split_ifs <;> linarith)

/-! ## Claims -/

/-- C1: the claim states that every report's verdict matches its risk
score under the fixed thresholds (≤ 30 `SAFE`, 31–70 `CAUTION`,
≥ 71 `UNSAFE`).  The repository's own `VERDICT_THRESHOLDS` constant
agrees with the claim, but the `RISK_SCORER` arm of
`generateFallbackResponse` computes the verdict with strict
`riskScore < 70` for `CAUTION`: at the reachable fallback score of
exactly 70 (more than 5 third-party cookies, deletion status not
`"no"`) it emits `UNSAFE` although 70 lies inside the constant's
`CAUTION` row — the code contradicts its own thresholds. -/
theorem c1_fallback_verdict_at_70_contradicts_thresholds :
    (generateFallbackResponse "RISK_SCORER" { cookies := Json.obj [("third_party", Json.num 6)] }).get "risk_score" = Json.num 70 ∧
    (generateFallbackResponse "RISK_SCORER" { cookies := Json.obj [("third_party", Json.num 6)] }).get "verdict" = Json.str "UNSAFE" ∧
    VERDICT_THRESHOLDS.CAUTION.min ≤ 70 ∧ (70 : ℚ) ≤ VERDICT_THRESHOLDS.CAUTION.max ∧
    ("UNSAFE" : String) ≠ "CAUTION" := by
  refine ⟨?_, ?_, by norm_num [VERDICT_THRESHOLDS], by norm_num [VERDICT_THRESHOLDS], by decide⟩
  · show Json.num (min ((50 + 20) + 0) 100) = Json.num 70
    norm_num
  · show Json.str (if ((50 + 20) + 0 : ℚ) < 30 then "SAFE" else if ((50 + 20) + 0 : ℚ) < 70 then "CAUTION" else "UNSAFE") = Json.str "UNSAFE"
    norm_num

/-- C2: for each of the four step identifiers and every input data
object (of the shapes the pipeline's call sites supply),
`generateFallbackResponse` is total — never throws — and its result
satisfies that step's required-field schema, so `validateResponse`
accepts it.  (Serialization is the identity on these finite JSON values
— all their numbers are finite — so validating the parsed serialization
and validating the value itself coincide.) -/
theorem c2_fallback_always_schema_valid (input : FallbackInput) :
    validateResponse "SUMMARIZER" (some (generateFallbackResponse "SUMMARIZER" input)) = true ∧
    validateResponse "COOKIE_ANALYZER" (some (generateFallbackResponse "COOKIE_ANALYZER" input)) = true ∧
    validateResponse "DELETION_ANALYZER" (some (generateFallbackResponse "DELETION_ANALYZER" input)) = true ∧
    validateResponse "RISK_SCORER" (some (generateFallbackResponse "RISK_SCORER" input)) = true := by
  refine ⟨rfl, rfl, rfl, ?_⟩
  show validateResponseParsed "RISK_SCORER" (generateFallbackResponse "RISK_SCORER" input) = true
  rw [generateFallbackResponse_risk]
  show ((["SAFE", "CAUTION", "UNSAFE"] : List String).contains
      (if ((50 + (if jsGtNum (input.cookies.get "third_party") 5 then 20 else 0)) + (if jsStrEq (input.deletion.get "can_delete") "no" then 15 else 0) : ℚ) < 30 then "SAFE" else if ((50 + (if jsGtNum (input.cookies.get "third_party") 5 then 20 else 0)) + (if jsStrEq (input.deletion.get "can_delete") "no" then 15 else 0) : ℚ) < 70 then "CAUTION" else "UNSAFE") && true) = true
  rw [verdictString_mem]
  rfl

/-- C9: for every input, the `RISK_SCORER` fallback produces a
`risk_score` in `[50, 85]` — a baseline of 50 plus at most `+20` (more
than 5 third-party cookies) and `+15` (deletion unavailable) — so a
fallback-derived risk result's verdict is never `SAFE`. -/
theorem c9_risk_fallback_range_never_safe (input : FallbackInput) :
    ∃ q : ℚ, ∃ v : String,
      (generateFallbackResponse "RISK_SCORER" input).get "risk_score" = Json.num q ∧
      (generateFallbackResponse "RISK_SCORER" input).get "verdict" = Json.str v ∧
      50 ≤ q ∧ q ≤ 85 ∧ v ≠ "SAFE" := by
  rw [generateFallbackResponse_risk]
  cases h1 : jsGtNum (input.cookies.get "third_party") 5 <;>
    cases h2 : jsStrEq (input.deletion.get "can_delete") "no" <;>
    exact ⟨_, _, rfl, rfl, by norm_num, by norm_num, verdictString_ne_safe _ (by norm_num)⟩

/-- C10 counterexample: the claim says `formatPrompt` rejects **every**
unrecognized template name with the `Unknown prompt template` error,
but the JS bracket lookup traverses the prototype chain: for the
unrecognized name `"toString"` it finds the truthy inherited
`Object.prototype.toString`, so `!template` does not fire — with no
variables the call returns normally (prompt `undefined`, maxTokens 500,
name `"toString"`), and with a variable it throws a `TypeError` from
`undefined.replace` — in neither case the claimed error.  The
`validateResponse` half of the claim does hold at this name. -/
theorem c10_counterexample_prototype_member :
    ("toString" ∉ (["SUMMARIZER", "COOKIE_ANALYZER", "DELETION_ANALYZER", "RISK_SCORER"] : List String)) ∧
    validateResponseParsed "toString" (Json.num 1) = true ∧
    formatPrompt "toString" [] = .ok { prompt := none, maxTokens := 500, name := some "toString" } ∧
    formatPrompt "toString" [("policyText", Json.str "text")] = .error .typeError ∧
    formatPrompt "toString" [] ≠ .error (.unknownTemplate ("Unknown prompt template: " ++ "toString")) ∧
    formatPrompt "toString" [("policyText", Json.str "text")] ≠ .error (.unknownTemplate ("Unknown prompt template: " ++ "toString")) := by
  refine ⟨by decide, rfl, rfl, rfl, ?_, ?_⟩
  · intro h
    exact Except.noConfusion h
  · intro h
    exact Except.noConfusion h (fun hab => JsThrow.noConfusion hab)

/-- C10 (amended): for every template name that is neither one of the
four step identifiers nor an `Object.prototype` member name,
`validateResponse` accepts any parseable response through its `default`
arm while `formatPrompt` rejects the name with the
`Unknown prompt template` error; for an unrecognized name that **is**
an inherited member name the validation half still holds, but
`formatPrompt` never produces the `Unknown prompt template` error (it
returns normally or throws a `TypeError` instead). -/
theorem c10_amended_unknown_template (templateName : String)
    (hstep : templateName ∉ (["SUMMARIZER", "COOKIE_ANALYZER", "DELETION_ANALYZER", "RISK_SCORER"] : List String)) :
    (∀ parsed : Json, validateResponseParsed templateName parsed = true) ∧
    (templateName ∉ objectPrototypeMemberNames →
      ∀ vars : List (String × Json),
        formatPrompt templateName vars = .error (.unknownTemplate ("Unknown prompt template: " ++ templateName))) ∧
    (templateName ∈ objectPrototypeMemberNames →
      ∀ (vars : List (String × Json)) (message : String),
        formatPrompt templateName vars ≠ .error (.unknownTemplate message)) := by
  simp only [List.mem_cons, List.not_mem_nil, or_false, not_or] at hstep
  obtain ⟨h1, h2, h3, h4⟩ := hstep
  refine ⟨?_, ?_, ?_⟩
  · intro parsed
    unfold validateResponseParsed
    rw [if_neg h1, if_neg h2, if_neg h3, if_neg h4]
  · intro hmem vars
    unfold formatPrompt PROMPT_TEMPLATES
    rw [if_neg h1, if_neg h2, if_neg h3, if_neg h4, if_neg hmem]
  · intro hmem vars message h
    unfold formatPrompt PROMPT_TEMPLATES at h
    rw [if_neg h1, if_neg h2, if_neg h3, if_neg h4, if_pos hmem] at h
    cases vars with
    | nil => exact Except.noConfusion h
    | cons kv rest => exact Except.noConfusion h (fun hab => JsThrow.noConfusion hab)

/-- Witness for C10 (amended) at the concrete names
`"TOTALLY_UNKNOWN"` (no own or inherited property: validation passes,
formatting throws the Unknown-template error) and `"toString"` (an
inherited member: validation passes, formatting does not throw that
error). -/
theorem c10_amended_unknown_template_witness :
    validateResponseParsed "TOTALLY_UNKNOWN" (Json.num 1) = true ∧
    formatPrompt "TOTALLY_UNKNOWN" [] = .error (.unknownTemplate ("Unknown prompt template: " ++ "TOTALLY_UNKNOWN")) ∧
    validateResponseParsed "toString" (Json.num 1) = true ∧
    formatPrompt "toString" [] ≠ .error (.unknownTemplate ("Unknown prompt template: " ++ "toString")) :=
  ⟨(c10_amended_unknown_template "TOTALLY_UNKNOWN" (by decide)).1 (Json.num 1),
   (c10_amended_unknown_template "TOTALLY_UNKNOWN" (by decide)).2.1 (by decide) [],
   (c10_amended_unknown_template "toString" (by decide)).1 (Json.num 1),
   (c10_amended_unknown_template "toString" (by decide)).2.2 (by decide) [] ("Unknown prompt template: " ++ "toString")⟩

/-- An AI risk response with an out-of-range score: syntactically valid
JSON, numeric `risk_score`, legal verdict, array of reasons. -/
def c3AiRisk : Json :=
  Json.obj [("risk_score", Json.num 150), ("verdict", Json.str "UNSAFE"), ("reasons", Json.arr [])]

/-- The combined step data of a run whose first three steps fell back
and whose risk step returned `c3AiRisk`. -/
def c3Combined : CombinedData :=
  { summarizer := generateFallbackResponse "SUMMARIZER" {}
    cookies := generateFallbackResponse "COOKIE_ANALYZER" {}
    deletion := generateFallbackResponse "DELETION_ANALYZER" {}
    risk := c3AiRisk }

/-- C3 counterexample: the claim says every final report's `riskScore`
lies in `[0, 100]`, AI-derived results included — but `validateResponse`
only checks `typeof risk_score === 'number'`, so the AI response with
`risk_score = 150` passes validation, is kept by `runRiskAssessment`,
and reaches the final report unchanged, outside `[0, 100]`. -/
theorem c3_counterexample_ai_score_150 :
    validateResponse "RISK_SCORER" (some c3AiRisk) = true ∧
    runRiskAssessment (some c3AiRisk) (generateFallbackResponse "SUMMARIZER" {}) (generateFallbackResponse "COOKIE_ANALYZER" {}) (generateFallbackResponse "DELETION_ANALYZER" {}) = c3AiRisk ∧
    (combineAnalysisResults c3Combined).map (fun r => r.risk_score) = some (Json.num 150) ∧
    ¬ ((150 : ℚ) ≤ VERDICT_THRESHOLDS.UNSAFE.max) :=
  ⟨rfl, rfl, rfl, by norm_num [VERDICT_THRESHOLDS]⟩

/-- C3 (amended): both fallback paths — the `RISK_SCORER` arm of
`generateFallbackResponse` and the whole-pipeline
`generateFallbackAnalysis` — always produce a `riskScore` within
`[0, 100]`; an AI-derived `risk_score` is only validated to be numeric,
so it lies in `[0, 100]` only when the AI output does. -/
theorem c3_amended_fallback_risk_in_range (input : FallbackInput) (d : AnalysisData) :
    (∃ q : ℚ, (generateFallbackResponse "RISK_SCORER" input).get "risk_score" = Json.num q ∧ 0 ≤ q ∧ q ≤ 100) ∧
    (∃ q : ℚ, (generateFallbackAnalysis d).risk_score = Json.num q ∧ 0 ≤ q ∧ q ≤ 100) := by
  constructor
  · rw [generateFallbackResponse_risk]
    exact ⟨_, rfl, le_min (by split_ifs <;> norm_num) (by norm_num), min_le_right _ _⟩
  · exact ⟨_, rfl, le_min (by split_ifs <;> norm_num) (by norm_num), min_le_right _ _⟩

/-- The empty page signal of the spec's Scenario 1: zero privacy-policy
links, zero cookies, empty policy text. -/
def c7AnalysisInput : AnalysisData :=
  { domain := "example.com", url := "https://example.com"
    privacyPolicyText := some "", cookies := some {} }

/-- The same empty signal as the service-worker heuristic receives it. -/
def c7SwInput : SwAnalysisData :=
  { domain := "example.com", url := "https://example.com"
    privacyPolicyLinks := some [], privacyPolicyText := some "", cookies := some {} }

/-- The combined step data the orchestrator builds on the empty signal
when every AI call fails: all four steps are fallback-derived. -/
def c7Combined : CombinedData :=
  { domain := "example.com", url := "https://example.com"
    summarizer := generateFallbackResponse "SUMMARIZER" { policyText := some "" }
    cookies := generateFallbackResponse "COOKIE_ANALYZER" { cookieData := some {} }
    deletion := generateFallbackResponse "DELETION_ANALYZER" { policyText := some "" }
    risk := runRiskAssessment none
      (generateFallbackResponse "SUMMARIZER" { policyText := some "" })
      (generateFallbackResponse "COOKIE_ANALYZER" { cookieData := some {} })
      (generateFallbackResponse "DELETION_ANALYZER" { policyText := some "" }) }

/-- On the empty signal with every AI call failing, the orchestrator's
report carries confidence 0.8: base 0.5, plus 0.2 for the 74-character
fallback summary, plus 0.1 for the two fallback risk reasons. -/
theorem c7_report_confidence : (analyzePrivacyPolicy {} c7AnalysisInput).confidence = 0.8 := by
  have hc : (analyzePrivacyPolicy {} c7AnalysisInput).confidence = calculateConfidence c7Combined := rfl
  have h1 : truthyLenGt ((c7Combined.summarizer).get "summary") 50 = true := by rfl
  have h2 : jsAddNums ((c7Combined.cookies).get "first_party") ((c7Combined.cookies).get "third_party") = Json.num ((0 - 0) + 0) := by rfl
  have h3 : jsStrEq ((c7Combined.deletion).get "can_delete") "unknown" = true := by rfl
  have h4 : truthyLenGt ((c7Combined.risk).get "reasons") 1 = true := by rfl
  rw [hc]
  unfold calculateConfidence
  rw [h1, h2, h3, h4]
  norm_num [jsGtNum]

/-- C7 counterexample: the claim bounds the all-fallback report's
confidence by 0.5, but on the empty signal the orchestrator's
all-fallback report has confidence 0.8 and the service-worker heuristic
reports its fixed confidence 0.6 — both above 0.5. -/
theorem c7_counterexample_confidence_above_half :
    (analyzePrivacyPolicy {} c7AnalysisInput).confidence = 0.8 ∧
    (swAnalyzePrivacyPolicy c7SwInput).confidence = 0.6 ∧
    ¬ ((analyzePrivacyPolicy {} c7AnalysisInput).confidence ≤ 1/2) ∧
    ¬ ((swAnalyzePrivacyPolicy c7SwInput).confidence ≤ 1/2) := by
  refine ⟨c7_report_confidence, rfl, ?_, ?_⟩
  · rw [c7_report_confidence]; norm_num
  · show ¬ ((0.6 : ℚ) ≤ 1/2)
    norm_num

/-- C7 (amended): on a signal with zero links, zero cookies and empty
policy text, the analysis takes the fallback path entirely — all four
orchestrator steps substitute their `generateFallbackResponse` output —
and the returned report's confidence is 0.8 for the orchestrator and
0.6 for the service-worker heuristic (above 0.5, at most 0.8, not
"at most 0.5" as claimed). -/
theorem c7_empty_input_full_fallback :
    runSummarizer none (some "") = generateFallbackResponse "SUMMARIZER" { policyText := some "" } ∧
    runCookieAnalysis none (some {}) = generateFallbackResponse "COOKIE_ANALYZER" { cookieData := some {} } ∧
    runDeletionAnalysis none (some "") = generateFallbackResponse "DELETION_ANALYZER" { policyText := some "" } ∧
    c7Combined.risk = generateFallbackResponse "RISK_SCORER" { cookies := c7Combined.cookies, deletion := c7Combined.deletion } ∧
    (analyzePrivacyPolicy {} c7AnalysisInput).confidence = 0.8 ∧
    (swAnalyzePrivacyPolicy c7SwInput).confidence = 0.6 ∧
    (1/2 : ℚ) < 0.8 ∧ (0.8 : ℚ) ≤ 0.8 :=
  ⟨rfl, rfl, rfl, rfl, c7_report_confidence, rfl, by norm_num, by norm_num⟩

/-- C8: `calculateConfidence` always lies within `[0.5, 1.0]` — the base
0.5 only ever grows by non-negative bonuses and `Math.min` caps the sum
at 1.0 — and a report produced by `combineAnalysisResults` carries
exactly that confidence, so its confidence is never below 0.5. -/
theorem c8_confidence_bounds (data : CombinedData) :
    1/2 ≤ calculateConfidence data ∧ calculateConfidence data ≤ 1 ∧
    (combineAnalysisResults data).elim True
      (fun r => 1/2 ≤ r.confidence ∧ r.confidence ≤ 1) := by
  have hb : 1/2 ≤ calculateConfidence data ∧ calculateConfidence data ≤ 1 := by
    unfold calculateConfidence
    refine ⟨le_min ?_ (by norm_num), min_le_right _ _⟩
    split_ifs <;> norm_num
  refine ⟨hb.1, hb.2, ?_⟩
  rcases hc : combineAnalysisResults data with _ | r
  · exact trivial
  · show 1/2 ≤ r.confidence ∧ r.confidence ≤ 1
    rw [combineAnalysisResults_confidence data r hc]
    exact hb

/-- C4: every cookie lands in exactly one of the six buckets of
`categorizeCookies` (the bucket sizes sum to the cookie count, and
bucket membership is exactly assignment of that category); the category
is the first group matching in the fixed priority order, so an
essential-pattern match always yields `essential` — in particular ahead
of any advertising-pattern match — and a cookie matching no group is
`unknown`. -/
theorem c4_cookie_categorization (cookies : List CookieRecord) :
    ((allCategories.map (fun c => (categorizeCookies cookies c).length)).sum = cookies.length) ∧
    (∀ k : CookieRecord, ∀ c : CookieCategory,
      k ∈ categorizeCookies cookies c ↔ (k ∈ cookies ∧ categorizeName k.name = c)) ∧
    (∀ name : String, matchesCategory name .essential = true → categorizeName name = .essential) ∧
    (∀ name : String, (∀ c ∈ orderedCategories, matchesCategory name c = false) →
      categorizeName name = .unknown) := by
  refine ⟨?_, ?_, ?_, ?_⟩
  · induction cookies with
    | nil => rfl
    | cons k t ih =>
        cases hc : categorizeName k.name <;>
          simp [allCategories, categorizeCookies, List.filter_cons, hc] at ih ⊢ <;>
          omega
  · intro k c
    simp [categorizeCookies, List.mem_filter]
  · intro name h
    have hfind : (orderedCategories.find? (fun c => matchesCategory name c)) = some .essential := by
      rw [show orderedCategories = [.essential, .analytics, .advertising, .preferences, .social] from rfl]
      exact List.find?_cons_of_pos _ (by simpa using h)
    simp [categorizeName, hfind]
  · intro name h
    have h1 := h .essential (by simp [orderedCategories])
    have h2 := h .analytics (by simp [orderedCategories])
    have h3 := h .advertising (by simp [orderedCategories])
    have h4 := h .preferences (by simp [orderedCategories])
    have h5 := h .social (by simp [orderedCategories])
    simp [categorizeName, orderedCategories, List.find?, h1, h2, h3, h4, h5]

/-- Witness for C4: a name matching the essential `/^session/i` pattern
(despite containing "ad") is bucketed `essential`; a name matching no
pattern is `unknown`. -/
theorem c4_cookie_categorization_witness :
    categorizeName "SessionAdTracker" = .essential ∧ categorizeName "weirdcookie" = .unknown :=
  ⟨(c4_cookie_categorization []).2.2.1 "SessionAdTracker" (by decide),
   (c4_cookie_categorization []).2.2.2 "weirdcookie" (by decide)⟩

/-- C5 counterexample: the claim describes every third-party
classification as the bidirectional substring rule, but the Chrome-API
classifier of `cookie-extractor.js` only tests one direction (and never
strips a leading dot): for cookie domain `"ample.com"` on page
`"example.com"` it reports third-party although the cookie domain is a
substring of the page domain, so the bidirectional rule (and the
content-script classifier implementing it) reports first-party. -/
theorem c5_counterexample_one_directional :
    isThirdPartyChromeCookie "ample.com" "example.com" = true ∧
    claimThirdParty "ample.com" "example.com" = false ∧
    isThirdPartyContentScript "ample.com" "example.com" = false :=
  ⟨by decide, by decide, by decide⟩

/-- C5 (amended): the content-script `extractCookieData` classifier is
exactly the claimed bidirectional dot-stripping substring rule, while
the `cookie-extractor.js` Chrome-API classifier marks a cookie
third-party exactly when the page domain is not a substring of the
unstripped cookie domain (one direction only). -/
theorem c5_amended_two_classifiers (cookieDomain pageDomain : String) :
    isThirdPartyContentScript cookieDomain pageDomain = claimThirdParty cookieDomain pageDomain ∧
    isThirdPartyChromeCookie cookieDomain pageDomain = !(strIncludes cookieDomain pageDomain) :=
  ⟨rfl, rfl⟩

/-- C6 counterexample: the claim awards `+1` for a generic `"legal"` or
`"terms"` term, but the content-script scorer has no `"terms"` bonus:
the qualifying anchor with text `"terms of use"` scores 0 while the
claimed formula scores 1. -/
theorem c6_counterexample_terms_no_bonus :
    contentScriptIsPrivacyLink "https://a.com/tos" "terms of use" = true ∧
    contentScriptLinkPriority "terms of use" "https://a.com/tos" "a.com" "b.com" = 0 ∧
    claimLinkPriority "terms of use" "https://a.com/tos" "a.com" "b.com" = 1 ∧
    (0 : ℚ) ≠ 1 := by
  refine ⟨by decide, ?_, ?_, by norm_num⟩
  · show ((0 : ℚ) + 0 + 0 + 0 + 0) = 0
    norm_num
  · show ((0 : ℚ) + 0 + 0 + 1 + 0) = 1
    norm_num

/-- C6 (amended): the content-script priority is the accumulated sum of
the independent bonuses `+10` (exact privacy-policy match), `+5`
(privacy term), `+1` (for a `"legal"` term only — `"terms"` earns
nothing), `+3` (same host); it is never negative (and at most 19), the
claimed formula exceeds it by exactly the phantom `terms`-only bonus,
and the scraper's relevance score is likewise never negative. -/
theorem c6_amended_priority_decomposition (linkText absoluteUrl linkDomain currentDomain : String) :
    0 ≤ contentScriptLinkPriority linkText absoluteUrl linkDomain currentDomain ∧
    contentScriptLinkPriority linkText absoluteUrl linkDomain currentDomain ≤ 19 ∧
    claimLinkPriority linkText absoluteUrl linkDomain currentDomain =
      contentScriptLinkPriority linkText absoluteUrl linkDomain currentDomain +
        (if (!(strIncludes linkText "legal" || strIncludes absoluteUrl "legal") &&
             (strIncludes linkText "terms" || strIncludes absoluteUrl "terms")) then 1 else 0) ∧
    (∀ text url : String, 0 ≤ getPrivacyRelevanceScore text url) := by
  refine ⟨?_, ?_, ?_, ?_⟩
  · unfold contentScriptLinkPriority; split_ifs <;> norm_num
  · unfold contentScriptLinkPriority; split_ifs <;> norm_num
  · cases hA : strIncludes linkText "legal" <;> cases hB : strIncludes absoluteUrl "legal" <;>
      cases hC : strIncludes linkText "terms" <;> cases hD : strIncludes absoluteUrl "terms" <;>
      simp [claimLinkPriority, contentScriptLinkPriority, hA, hB, hC, hD] <;> ring
  · intro text url
    unfold getPrivacyRelevanceScore
    exact foldl_bonus_nonneg (fun term => strIncludes text term || strIncludes url term) 1 (by norm_num) _ _
      (foldl_bonus_nonneg (fun term => strIncludes text term || strIncludes url term) 5 (by norm_num) _ _
        (foldl_bonus_nonneg (fun term => strIncludes text term || strIncludes url term) 10 (by norm_num) _ _ (by norm_num)))

end CatchClause
